import Mathlib

/-!
Verification development for a small similarity web service.

The repository has two Python source files:
  src/Sources/services/main.py          -- Flask service with POST /calculate-distances
                                           and GET /health, plus module-level model loading
  src/Sources/services/download_model.py -- standalone model provisioning script

This file gives a shallow embedding of both files.  Request handling is
modelled as a pure function from an abstract HTTP request (content-type flag
plus the outcome of JSON body parsing) to an HTTP response.  Python
exceptions inside the try block of the endpoint are modelled with the
Except monad: an uncaught exception becomes the 500 branch, exactly as the
outer try/except does in the source.  The numeric kernels of the external
libraries (sentence_transformers, sklearn) are embedded as follows: the
model encode function is an abstract parameter producing real vectors (a
batch encode is elementwise), and sklearn cosine_similarity is embedded
from its documented computation (L2-normalize each row, replacing zero
norms by 1, then take the dot product).  Float arithmetic is idealized as
real arithmetic.
-/

namespace SimService

/-- JSON values, as produced by parsing a request body.  Numbers are
idealized as real numbers. -/
inductive JVal where
  | null
  | bool (b : Bool)
  | num (x : ℝ)
  | str (s : String)
  | arr (xs : List JVal)
  | obj (fields : List (String × JVal))

/-- Outcome of flask request.get_json with force set: a parsed value, a
werkzeug BadRequest, or some other parsing exception. -/
inductive ParseOutcome where
  | ok (v : JVal)
  | badRequest (msg : String)
  | failure (msg : String)

/-- The part of a flask request that main.py consults: the is json
content-type test and the body parse outcome. -/
structure HttpRequest where
  is_json : Bool
  body : ParseOutcome

/-- An HTTP response: a status code and a JSON body. -/
structure HttpResponse where
  status : Nat
  body : JVal

/-- Python test "data is None": the parsed JSON value is null. -/
def isNull : JVal → Bool
  | JVal.null => true
  | _ => false

/-- Python isinstance(v, str) on a parsed JSON value. -/
def isStr : JVal → Bool
  | JVal.str _ => true
  | _ => false

/-- Python isinstance(v, list) on a parsed JSON value. -/
def isList : JVal → Bool
  | JVal.arr _ => true
  | _ => false

/-- Python isinstance(v, dict) on a parsed JSON value. -/
def isObj : JVal → Bool
  | JVal.obj _ => true
  | _ => false

/-- Extract the payload of a string value (only used under an isStr guard). -/
def asStr : JVal → String
  | JVal.str s => s
  | _ => ""

/-- Does the character list p occur at the start of s. -/
def charsStart : List Char → List Char → Bool
  | [], _ => true
  | _ :: _, [] => false
  | a :: p, b :: s => a == b && charsStart p s

/-- Does the character list p occur anywhere inside s (Python substring
containment). -/
def charsSub : List Char → List Char → Bool
  | p, [] => p.isEmpty
  | p, c :: s => charsStart p (c :: s) || charsSub p s

/-- Python expression "k in data" for a string key k.  On a dict it is key
membership, on a string it is substring containment, on a list it is
element membership (a string compares unequal to every non-string), and on
null, booleans and numbers it raises a TypeError, modelled as an error. -/
def pyContains (data : JVal) (k : String) : Except String Bool :=
  match data with
  | JVal.obj kvs => Except.ok (kvs.lookup k).isSome
  | JVal.str s => Except.ok (charsSub k.data s.data)
  | JVal.arr xs =>
      Except.ok (xs.any fun v =>
        match v with
        | JVal.str t => t == k
        | _ => false)
  | JVal.null => Except.error "argument of type NoneType is not iterable"
  | JVal.bool _ => Except.error "argument of type bool is not iterable"
  | JVal.num _ => Except.error "argument of type int is not iterable"

/-- Python expression "data[k]" for a string key k.  On a dict it is a key
lookup (KeyError if absent); on every other value it raises a TypeError,
modelled as an error. -/
def pyGetItem (data : JVal) (k : String) : Except String JVal :=
  match data with
  | JVal.obj kvs =>
      match kvs.lookup k with
      | some v => Except.ok v
      | none => Except.error ("KeyError: " ++ k)
  | JVal.str _ => Except.error "string indices must be integers"
  | JVal.arr _ => Except.error "list indices must be integers or slices, not str"
  | _ => Except.error "object is not subscriptable"

/-- Key containment in a JSON object (false on every non-object). -/
def objHasKey (v : JVal) (k : String) : Bool :=
  match v with
  | JVal.obj kvs => (kvs.lookup k).isSome
  | _ => false

/- Model constants, from the top of main.py and download_model.py. -/

/-- MODEL_NAME constant of the source. -/
def MODEL_NAME : String := "all-MiniLM-L6-v2"

/-- MODEL_HUGGINGFACE constant of the source: the remote registry
identifier derived from MODEL_NAME. -/
def MODEL_HUGGINGFACE : String := "sentence-transformers/" ++ MODEL_NAME

/-- MODEL_DIR constant of the source, relative to the directory of the
script file. -/
def MODEL_DIR (baseDir : String) : String := baseDir ++ "/models/" ++ MODEL_NAME

/- Vector arithmetic of sklearn cosine_similarity, idealized over the
reals. -/

/-- Dot product of two real vectors. -/
def dot (x y : List ℝ) : ℝ := (List.zipWith (fun a b => a * b) x y).sum

/-- Divisor used by sklearn normalize: the L2 norm of the row, with zero
norms replaced by 1. -/
noncomputable def normDiv (v : List ℝ) : ℝ :=
  if Real.sqrt (dot v v) = 0 then 1 else Real.sqrt (dot v v)

/-- sklearn normalize applied to one row. -/
noncomputable def pyNormalize (v : List ℝ) : List ℝ :=
  v.map fun a => a / normDiv v

/-- sklearn cosine_similarity of two rows: normalize both rows, then take
the dot product. -/
noncomputable def cosineSim (x y : List ℝ) : ℝ :=
  dot (pyNormalize x) (pyNormalize y)

/-- The model encode function, abstract: one input text to one embedding
vector, or a raised exception. -/
def Encoder : Type := String → Except String (List ℝ)

/-- Batch encoding: model.encode on a list of texts is elementwise
encoding in input order, and an exception on any element aborts the
call. -/
def encodeBatch (enc : Encoder) : List String → Except String (List (List ℝ))
  | [] => Except.ok []
  | t :: ts =>
      match enc t with
      | Except.error e => Except.error e
      | Except.ok v =>
          match encodeBatch enc ts with
          | Except.error e => Except.error e
          | Except.ok vs => Except.ok (v :: vs)

/-- A 400 response with a single error field, as produced by the
validation branches of the endpoint. -/
def e400 (msg : String) : HttpResponse :=
  ⟨400, JVal.obj [("error", JVal.str msg)]⟩

/-- Body of the try block of calculate_distances in main.py, in source
order.  An error value is an uncaught Python exception, to be turned into
a 500 response by the surrounding try/except. -/
noncomputable def calcCore (enc : Encoder) (req : HttpRequest) : Except String HttpResponse :=
  if req.is_json = false then
    Except.ok (e400 "Content-Type must be application/json")
  else
    match req.body with
    | ParseOutcome.badRequest m =>
        Except.ok ⟨400, JVal.obj [("error", JVal.str "Invalid JSON format"),
                                  ("details", JVal.str m)]⟩
    | ParseOutcome.failure m =>
        Except.ok ⟨400, JVal.obj [("error", JVal.str "Failed to parse JSON"),
                                  ("details", JVal.str m)]⟩
    | ParseOutcome.ok data =>
        if isNull data then Except.ok (e400 "Request body is empty or invalid JSON")
        else
          match pyContains data "spec" with
          | Except.error e => Except.error e
          | Except.ok hasSpec =>
            if hasSpec = false then Except.ok (e400 "Missing \x27spec\x27 field") else
            match pyContains data "candidates" with
            | Except.error e => Except.error e
            | Except.ok hasCand =>
              if hasCand = false then Except.ok (e400 "Missing \x27candidates\x27 field") else
              match pyGetItem data "spec" with
              | Except.error e => Except.error e
              | Except.ok specVal =>
                match pyGetItem data "candidates" with
                | Except.error e => Except.error e
                | Except.ok candVal =>
                  match specVal with
                  | JVal.str specStr =>
                    match candVal with
                    | JVal.arr cands =>
                      if cands.length = 0 then
                        Except.ok (e400 "\x27candidates\x27 list cannot be empty")
                      else if cands.all isStr = false then
                        Except.ok (e400 "All items in \x27candidates\x27 must be strings")
                      else
                        match enc specStr with
                        | Except.error e => Except.error e
                        | Except.ok specEmb =>
                          match encodeBatch enc (cands.map asStr) with
                          | Except.error e => Except.error e
                          | Except.ok candEmbs =>
                            let sims := candEmbs.map fun v => cosineSim specEmb v
                            let distances := sims.map fun s => 1 - s
                            Except.ok ⟨200, JVal.obj
                              [("distances", JVal.arr (distances.map JVal.num))]⟩
                    | _ => Except.ok (e400 "\x27candidates\x27 must be a list")
                  | _ => Except.ok (e400 "\x27spec\x27 must be a string")

/-- The calculate_distances endpoint: the try block, with any uncaught
exception turned into a 500 response carrying the error message. -/
noncomputable def calculate_distances (enc : Encoder) (req : HttpRequest) : HttpResponse :=
  match calcCore enc req with
  | Except.ok r => r
  | Except.error e =>
      ⟨500, JVal.obj [("error", JVal.str ("Internal server error: " ++ e))]⟩

/-- The health endpoint of main.py: a constant 200 response. -/
def health : HttpResponse :=
  ⟨200, JVal.obj [("status", JVal.str "healthy"), ("model", JVal.str MODEL_NAME)]⟩

/-- A call to one of the two routes of the service. -/
inductive ApiCall where
  | calcDist (r : HttpRequest)
  | healthCheck

/-- Dispatch of one call.  The handlers read no mutable state: the only
process state is the loaded model, which is read-only, so dispatch is a
pure function of the encoder and the call. -/
noncomputable def handle (enc : Encoder) : ApiCall → HttpResponse
  | ApiCall.calcDist r => calculate_distances enc r
  | ApiCall.healthCheck => health

/-- Serving a sequence of calls: each request is handled independently and
synchronously, with no state carried between requests. -/
noncomputable def serveAll (enc : Encoder) (calls : List ApiCall) : List HttpResponse :=
  calls.map (handle enc)

/-- A well-formed valid request body as an object with the two fields. -/
def mkReq (s : String) (cs : List String) : HttpRequest :=
  ⟨true, ParseOutcome.ok (JVal.obj
    [("spec", JVal.str s), ("candidates", JVal.arr (cs.map JVal.str))])⟩

/- download_model.py, modelled as a pure function of the relevant world
state: whether MODEL_DIR already exists on disk, whether its config.json
descriptor exists (the script never reads it, but it is part of the
filesystem state), and the interactive answer the operator would give to
the re-download prompt.  The record of effects is returned explicitly. -/

/-- Python str.lower, characterwise. -/
def pyToLower (s : String) : String := ⟨s.data.map Char.toLower⟩

/-- Observable effects and result of one run of download_model. -/
structure DownloadEffects where
  madeParentDir : Bool
  prompted : Bool
  fetchedFrom : Option String
  savedTo : Option String
  returnValue : Option String

/-- The download_model function of download_model.py.  It first creates
the parent models directory, then tests only os.path.exists(MODEL_DIR)
(the configExists component of the world is never consulted); if the
directory exists it prompts, and skips the download unless the lowercased
answer is the letter y; otherwise it fetches from the registry identifier
and saves into MODEL_DIR.  Every path returns None. -/
def download_model (baseDir : String) (dirExists configExists : Bool)
    (answer : String) : DownloadEffects :=
  if dirExists then
    if (pyToLower answer == "y") = false then
      ⟨true, true, none, none, none⟩
    else
      ⟨true, true, some MODEL_HUGGINGFACE, some (MODEL_DIR baseDir), none⟩
  else
    ⟨true, false, some MODEL_HUGGINGFACE, some (MODEL_DIR baseDir), none⟩

/- Module-level model loading of main.py (lines 17 to 40), modelled as a
pure function of the relevant world state. -/

/-- World state consulted by the startup code: existence of the cache
directory and of its config.json descriptor, and the outcomes of the four
effectful operations it may perform. -/
structure StartupEnv (α : Type) where
  dirExists : Bool
  configExists : Bool
  localLoad : Except String α
  remoteLoad : Except String α
  mkdirs : Except String Unit
  save : Except String Unit

/-- Result of a successful startup: the loaded model, whether it came
from the local path, and whether it was saved back to disk. -/
structure StartupResult (α : Type) where
  model : α
  usedLocal : Bool
  saved : Bool

/-- The try block of the module-level loading code: load from the local
path exactly when both the directory and config.json exist, otherwise
fetch from the registry, create the parent directory and save; any
exception propagates. -/
def loadModelAtStartup {α : Type} (env : StartupEnv α) :
    Except String (StartupResult α) :=
  if env.dirExists && env.configExists then
    match env.localLoad with
    | Except.ok m => Except.ok ⟨m, true, false⟩
    | Except.error e => Except.error e
  else
    match env.remoteLoad with
    | Except.error e => Except.error e
    | Except.ok m =>
        match env.mkdirs with
        | Except.error e => Except.error e
        | Except.ok _ =>
            match env.save with
            | Except.error e => Except.error e
            | Except.ok _ => Except.ok ⟨m, false, true⟩

/-- The surrounding try/except of the startup code: on an exception the
error message is printed (logged) and the exception is re-raised, so the
process terminates with no model; on success nothing is logged. -/
def startupWithLog {α : Type} (env : StartupEnv α) :
    Except String (StartupResult α) × List String :=
  match loadModelAtStartup env with
  | Except.ok r => (Except.ok r, [])
  | Except.error e => (Except.error e, ["Error loading model: " ++ e])

/- Arithmetic facts about the embedded cosine similarity. -/

/-- Unfolding of dot on a cons pair. -/
theorem dot_cons (a b : ℝ) (x y : List ℝ) :
    dot (a :: x) (b :: y) = a * b + dot x y := rfl

/-- The dot product of a vector with itself is nonnegative. -/
theorem dot_self_nonneg (v : List ℝ) : 0 ≤ dot v v := by
  induction v with
  | nil => simp [dot]
  | cons a t ih =>
      rw [dot_cons]
      have h := mul_self_nonneg a
      linarith

/-- Cauchy-Schwarz for list dot products. -/
theorem dot_sq_le (x y : List ℝ) : (dot x y) ^ 2 ≤ dot x x * dot y y := by
  induction x generalizing y with
  | nil =>
      simp [dot]
  | cons a xs ih =>
      cases y with
      | nil =>
          simp [dot]
      | cons b ys =>
          have h := ih ys
          have hx := dot_self_nonneg xs
          have hy := dot_self_nonneg ys
          rw [dot_cons, dot_cons, dot_cons]
          rcases eq_or_lt_of_le hy with hy0 | hy0
          · have hD : dot xs ys = 0 := by nlinarith [sq_nonneg (dot xs ys)]
            rw [hD, ← hy0]
            nlinarith [mul_self_nonneg a, mul_self_nonneg b, mul_nonneg hx (mul_self_nonneg b)]
          · nlinarith [sq_nonneg (a * dot ys ys - b * dot xs ys),
              mul_nonneg (mul_self_nonneg b) (sub_nonneg.mpr h),
              mul_nonneg (le_of_lt hy0) (sub_nonneg.mpr h), hy0]

/-- The dot product is bounded by the product of the L2 norms. -/
theorem abs_dot_le (x y : List ℝ) :
    |dot x y| ≤ Real.sqrt (dot x x) * Real.sqrt (dot y y) := by
  rw [← Real.sqrt_sq_eq_abs, ← Real.sqrt_mul (dot_self_nonneg x)]
  exact Real.sqrt_le_sqrt (dot_sq_le x y)

/-- Scaling both arguments of dot divides the result by the product of
the scale factors (unconditionally, with division by zero giving zero). -/
theorem dot_map_div (x y : List ℝ) (c d : ℝ) :
    dot (x.map fun a => a / c) (y.map fun a => a / d) = dot x y / (c * d) := by
  induction x generalizing y with
  | nil => simp [dot]
  | cons a xs ih =>
      cases y with
      | nil => simp [dot]
      | cons b ys =>
          simp only [List.map_cons, dot_cons, ih ys]
          rw [div_mul_div_comm, div_add_div_same]

/-- Closed form of the embedded cosine similarity. -/
theorem cosineSim_eq (x y : List ℝ) :
    cosineSim x y = dot x y / (normDiv x * normDiv y) := by
  unfold cosineSim pyNormalize
  exact dot_map_div x y (normDiv x) (normDiv y)

/-- The embedded cosine similarity lies in the interval from -1 to 1. -/
theorem abs_cosineSim_le_one (x y : List ℝ) : |cosineSim x y| ≤ 1 := by
  rw [cosineSim_eq]
  by_cases hx : Real.sqrt (dot x x) = 0
  · have h0 : |dot x y| ≤ 0 := by
      have := abs_dot_le x y
      rw [hx, zero_mul] at this
      exact this
    have hxy : dot x y = 0 := abs_nonpos_iff.mp h0
    rw [hxy, zero_div, abs_zero]
    exact zero_le_one
  · by_cases hy : Real.sqrt (dot y y) = 0
    · have h0 : |dot x y| ≤ 0 := by
        have := abs_dot_le x y
        rw [hy, mul_zero] at this
        exact this
      have hxy : dot x y = 0 := abs_nonpos_iff.mp h0
      rw [hxy, zero_div, abs_zero]
      exact zero_le_one
    · have hxpos : 0 < Real.sqrt (dot x x) :=
        lt_of_le_of_ne (Real.sqrt_nonneg _) (Ne.symm hx)
      have hypos : 0 < Real.sqrt (dot y y) :=
        lt_of_le_of_ne (Real.sqrt_nonneg _) (Ne.symm hy)
      have hdx : normDiv x = Real.sqrt (dot x x) := if_neg hx
      have hdy : normDiv y = Real.sqrt (dot y y) := if_neg hy
      rw [hdx, hdy, abs_div, abs_of_pos (mul_pos hxpos hypos)]
      rw [div_le_one (mul_pos hxpos hypos)]
      exact abs_dot_le x y

/-- Cosine distances computed from the embedded similarity lie in the
closed interval from 0 to 2. -/
theorem one_sub_cosineSim_mem (x y : List ℝ) :
    0 ≤ 1 - cosineSim x y ∧ 1 - cosineSim x y ≤ 2 := by
  have h := abs_le.mp (abs_cosineSim_le_one x y)
  constructor <;> linarith [h.1, h.2]

/- Structural lemmas about the endpoint on valid requests. -/

/-- Mapping asStr over a list of string values recovers the strings. -/
theorem map_asStr_str (cs : List String) : (cs.map JVal.str).map asStr = cs := by
  induction cs with
  | nil => rfl
  | cons c t ih => simp [asStr, ih]

/-- A list of string values passes the all-strings check. -/
theorem all_isStr_map_str (cs : List String) : (cs.map JVal.str).all isStr = true := by
  induction cs with
  | nil => rfl
  | cons c t ih => simp [isStr, ih]

/-- A total encoder makes the batch encode succeed elementwise. -/
theorem encodeBatch_total (enc : Encoder) (emb : String → List ℝ)
    (henc : ∀ t, enc t = Except.ok (emb t)) (cs : List String) :
    encodeBatch enc cs = Except.ok (cs.map emb) := by
  induction cs with
  | nil => rfl
  | cons c t ih => simp [encodeBatch, henc c, ih]

/-- Evaluation of the try block on a request whose body is an object
carrying a string spec field and a candidates field holding a nonempty
list of strings: all validations pass and the result is determined by the
two encode calls. -/
theorem calcCore_object_valid (enc : Encoder) (kvs : List (String × JVal))
    (s : String) (cs : List String)
    (hspec : kvs.lookup "spec" = some (JVal.str s))
    (hcand : kvs.lookup "candidates" = some (JVal.arr (cs.map JVal.str)))
    (hne : cs ≠ []) :
    calcCore enc ⟨true, ParseOutcome.ok (JVal.obj kvs)⟩ =
      match enc s with
      | Except.error e => Except.error e
      | Except.ok specEmb =>
          match encodeBatch enc cs with
          | Except.error e => Except.error e
          | Except.ok candEmbs =>
              Except.ok ⟨200, JVal.obj [("distances", JVal.arr
                (((candEmbs.map fun v => cosineSim specEmb v).map
                  fun x => 1 - x).map JVal.num))]⟩ := by
  have hlen : (cs.map JVal.str).length = 0 → False := by
    intro h
    rw [List.length_map, List.length_eq_zero] at h
    exact hne h
  simp only [calcCore, isNull, pyContains, pyGetItem, hspec, hcand,
    Option.isSome_some, map_asStr_str, all_isStr_map_str,
    Bool.true_eq_false, Bool.false_eq_true, if_false, if_neg hlen]

/-- Full evaluation of the endpoint on a valid request when the encoder
is total: a 200 response carrying one distance per candidate, each equal
to one minus the cosine similarity of the two embeddings. -/
theorem calculate_distances_valid_total (enc : Encoder) (emb : String → List ℝ)
    (kvs : List (String × JVal)) (s : String) (cs : List String)
    (hspec : kvs.lookup "spec" = some (JVal.str s))
    (hcand : kvs.lookup "candidates" = some (JVal.arr (cs.map JVal.str)))
    (hne : cs ≠ [])
    (henc : ∀ t, enc t = Except.ok (emb t)) :
    calculate_distances enc ⟨true, ParseOutcome.ok (JVal.obj kvs)⟩ =
      ⟨200, JVal.obj [("distances", JVal.arr
        (cs.map fun c => JVal.num (1 - cosineSim (emb s) (emb c))))]⟩ := by
  unfold calculate_distances
  rw [calcCore_object_valid enc kvs s cs hspec hcand hne, henc s,
    encodeBatch_total enc emb henc cs]
  simp [List.map_map, Function.comp]

/- Spec-side description of the validation cascade of section 4.3, used
for the refinement comparison of the validation behavior.  This
definition follows the words of the spec (the nine ordered checks, first
failing check wins), not the source. -/

/-- Field access on an object body, defaulting to null (only used after a
presence check). -/
def objGetD (v : JVal) (k : String) : JVal :=
  match v with
  | JVal.obj kvs => (kvs.lookup k).getD JVal.null
  | _ => JVal.null

/-- Length of a list body, defaulting to 0. -/
def jLenD : JVal → Nat
  | JVal.arr xs => xs.length
  | _ => 0

/-- Are all elements of a list body strings. -/
def jAllStr : JVal → Bool
  | JVal.arr xs => xs.all isStr
  | _ => false

/-- Modelled from the spec: the nine ordered validation checks of section
4.3, with the first failing check producing its 400 response and a passing
run producing none.  Field presence is read as key membership in the
parsed object. -/
def specFirstFailure (req : HttpRequest) : Option HttpResponse :=
  if req.is_json = false then
    some (e400 "Content-Type must be application/json")
  else
    match req.body with
    | ParseOutcome.badRequest m =>
        some ⟨400, JVal.obj [("error", JVal.str "Invalid JSON format"),
                             ("details", JVal.str m)]⟩
    | ParseOutcome.failure m =>
        some ⟨400, JVal.obj [("error", JVal.str "Failed to parse JSON"),
                             ("details", JVal.str m)]⟩
    | ParseOutcome.ok data =>
        if isNull data then some (e400 "Request body is empty or invalid JSON")
        else if objHasKey data "spec" = false then
          some (e400 "Missing \x27spec\x27 field")
        else if objHasKey data "candidates" = false then
          some (e400 "Missing \x27candidates\x27 field")
        else if isStr (objGetD data "spec") = false then
          some (e400 "\x27spec\x27 must be a string")
        else if isList (objGetD data "candidates") = false then
          some (e400 "\x27candidates\x27 must be a list")
        else if jLenD (objGetD data "candidates") = 0 then
          some (e400 "\x27candidates\x27 list cannot be empty")
        else if jAllStr (objGetD data "candidates") = false then
          some (e400 "All items in \x27candidates\x27 must be strings")
        else none

/-- Every response of the spec-side cascade is a 400 whose body has no
distances key. -/
theorem specFirstFailure_shape (req : HttpRequest) (r : HttpResponse)
    (hr : specFirstFailure req = some r) :
    r.status = 400 ∧ objHasKey r.body "distances" = false := by
  obtain ⟨ij, body⟩ := req
  unfold specFirstFailure at hr
  cases ij <;> cases body <;> repeat' split at hr
  all_goals first
    | (injection hr with h; subst h; exact ⟨rfl, rfl⟩)
    | simp at hr

/-- On requests whose parsed body is null or an object, the try block
realizes exactly the spec-side cascade whenever some check fails. -/
theorem calcCore_refines_spec (enc : Encoder) (req : HttpRequest) (r : HttpResponse)
    (hbody : ∀ d, req.body = ParseOutcome.ok d → isNull d = true ∨ isObj d = true)
    (hr : specFirstFailure req = some r) :
    calcCore enc req = Except.ok r := by
  obtain ⟨ij, body⟩ := req
  cases ij with
  | false =>
      simp [specFirstFailure] at hr
      subst hr
      rfl
  | true =>
      cases body with
      | badRequest m =>
          simp [specFirstFailure] at hr
          subst hr
          rfl
      | failure m =>
          simp [specFirstFailure] at hr
          subst hr
          rfl
      | ok data =>
          have hd := hbody data rfl
          cases hnull : isNull data with
          | true =>
              simp [specFirstFailure, hnull] at hr
              subst hr
              simp [calcCore, hnull]
          | false =>
              have hobj : isObj data = true := by simpa [hnull] using hd
              cases data with
              | obj kvs =>
                  simp only [specFirstFailure, isNull, objHasKey, objGetD, jLenD,
                    jAllStr, Bool.true_eq_false, if_false] at hr
                  simp only [calcCore, isNull, pyContains, pyGetItem,
                    Bool.true_eq_false, if_false]
                  cases hs : List.lookup "spec" kvs with
                  | none =>
                      simp [hs] at hr
                      subst hr
                      simp
                  | some v =>
                      cases hc : List.lookup "candidates" kvs with
                      | none =>
                          simp [hs, hc] at hr
                          subst hr
                          simp
                      | some w =>
                          cases v with
                          | str s =>
                              cases w with
                              | arr xs =>
                                  simp only [hs, hc, Option.isSome_some,
                                    Option.getD_some, isStr, isList,
                                    Bool.true_eq_false, if_false] at hr ⊢
                                  by_cases hlen : xs.length = 0
                                  · simp [hlen] at hr ⊢
                                    subst hr
                                    rfl
                                  · by_cases hall : xs.all isStr = false
                                    · simp [hlen, hall] at hr ⊢
                                      subst hr
                                      rfl
                                    · simp [hlen, hall] at hr
                              | null =>
                                  simp [hs, hc, isStr, isList] at hr ⊢
                                  subst hr; rfl
                              | bool b =>
                                  simp [hs, hc, isStr, isList] at hr ⊢
                                  subst hr; rfl
                              | num q =>
                                  simp [hs, hc, isStr, isList] at hr ⊢
                                  subst hr; rfl
                              | str t =>
                                  simp [hs, hc, isStr, isList] at hr ⊢
                                  subst hr; rfl
                              | obj fs =>
                                  simp [hs, hc, isStr, isList] at hr ⊢
                                  subst hr; rfl
                          | null =>
                              simp [hs, hc, isStr] at hr ⊢
                              subst hr; rfl
                          | bool b =>
                              simp [hs, hc, isStr] at hr ⊢
                              subst hr; rfl
                          | num q =>
                              simp [hs, hc, isStr] at hr ⊢
                              subst hr; rfl
                          | arr xs =>
                              simp [hs, hc, isStr] at hr ⊢
                              subst hr; rfl
                          | obj fs =>
                              simp [hs, hc, isStr] at hr ⊢
                              subst hr; rfl
              | null => simp [isNull] at hnull
              | bool b => simp [isObj] at hobj
              | num q => simp [isObj] at hobj
              | str s => simp [isObj] at hobj
              | arr xs => simp [isObj] at hobj

/- Concrete encoders used by the witnesses. -/

/-- A concrete embedding function for witnesses. -/
def embUnit : String → List ℝ := fun _ => [1, 0]

/-- A concrete total encoder for witnesses. -/
def encUnit : Encoder := fun t => Except.ok (embUnit t)

/-- A concrete always-failing encoder for witnesses. -/
def encBoom : Encoder := fun _ => Except.error "model crashed"

/-- C1: for every valid request the response carries a distances sequence
with exactly one element per candidate, and order is preserved: the entry
at index i is the distance computed for the candidate at index i. -/
theorem claim1_length_and_order (enc : Encoder) (emb : String → List ℝ)
    (kvs : List (String × JVal)) (s : String) (cs : List String)
    (hspec : kvs.lookup "spec" = some (JVal.str s))
    (hcand : kvs.lookup "candidates" = some (JVal.arr (cs.map JVal.str)))
    (hne : cs ≠ [])
    (henc : ∀ t, enc t = Except.ok (emb t)) :
    ∃ ds : List ℝ,
      calculate_distances enc ⟨true, ParseOutcome.ok (JVal.obj kvs)⟩ =
        ⟨200, JVal.obj [("distances", JVal.arr (ds.map JVal.num))]⟩ ∧
      ds.length = cs.length ∧
      ∀ i (h1 : i < ds.length) (h2 : i < cs.length),
        ds.get ⟨i, h1⟩ = 1 - cosineSim (emb s) (emb (cs.get ⟨i, h2⟩)) := by
  refine ⟨cs.map fun c => 1 - cosineSim (emb s) (emb c), ?_, ?_, ?_⟩
  · rw [calculate_distances_valid_total enc emb kvs s cs hspec hcand hne henc]
    simp [List.map_map, Function.comp]
  · simp
  · intro i h1 h2
    simp only [List.get_eq_getElem, List.getElem_map]

/-- Witness for C1 at a concrete valid request. -/
theorem claim1_witness :
    ∃ ds : List ℝ,
      calculate_distances encUnit ⟨true, ParseOutcome.ok (JVal.obj
        [("spec", JVal.str "a"), ("candidates", JVal.arr [JVal.str "b"])])⟩ =
        ⟨200, JVal.obj [("distances", JVal.arr (ds.map JVal.num))]⟩ ∧
      ds.length = (["b"] : List String).length ∧
      ∀ i (h1 : i < ds.length) (h2 : i < (["b"] : List String).length),
        ds.get ⟨i, h1⟩ =
          1 - cosineSim (embUnit "a") (embUnit ((["b"] : List String).get ⟨i, h2⟩)) :=
  claim1_length_and_order encUnit embUnit
    [("spec", JVal.str "a"), ("candidates", JVal.arr [JVal.str "b"])]
    "a" ["b"] rfl rfl (by simp) (fun _ => rfl)

/-- C2: for every valid request, each returned value is one minus the
cosine similarity between the embedding of the spec string and the
embedding of the corresponding candidate, as produced by the model encode
function. -/
theorem claim2_distance_formula (enc : Encoder) (emb : String → List ℝ)
    (kvs : List (String × JVal)) (s : String) (cs : List String)
    (hspec : kvs.lookup "spec" = some (JVal.str s))
    (hcand : kvs.lookup "candidates" = some (JVal.arr (cs.map JVal.str)))
    (hne : cs ≠ [])
    (henc : ∀ t, enc t = Except.ok (emb t)) :
    calculate_distances enc ⟨true, ParseOutcome.ok (JVal.obj kvs)⟩ =
      ⟨200, JVal.obj [("distances", JVal.arr
        (cs.map fun c => JVal.num (1 - cosineSim (emb s) (emb c))))]⟩ :=
  calculate_distances_valid_total enc emb kvs s cs hspec hcand hne henc

/-- Witness for C2 at a concrete valid request. -/
theorem claim2_witness :
    calculate_distances encUnit ⟨true, ParseOutcome.ok (JVal.obj
      [("spec", JVal.str "hello"), ("candidates", JVal.arr
        [JVal.str "hello", JVal.str "world"])])⟩ =
      ⟨200, JVal.obj [("distances", JVal.arr
        ((["hello", "world"] : List String).map
          fun c => JVal.num (1 - cosineSim (embUnit "hello") (embUnit c))))]⟩ :=
  claim2_distance_formula encUnit embUnit
    [("spec", JVal.str "hello"), ("candidates", JVal.arr
      [JVal.str "hello", JVal.str "world"])]
    "hello" ["hello", "world"] rfl rfl (by simp) (fun _ => rfl)

/-- C3: for every valid request, every returned distance lies in the
closed interval from 0 to 2. -/
theorem claim3_distance_range (enc : Encoder) (emb : String → List ℝ)
    (kvs : List (String × JVal)) (s : String) (cs : List String)
    (hspec : kvs.lookup "spec" = some (JVal.str s))
    (hcand : kvs.lookup "candidates" = some (JVal.arr (cs.map JVal.str)))
    (hne : cs ≠ [])
    (henc : ∀ t, enc t = Except.ok (emb t)) :
    ∃ ds : List ℝ,
      calculate_distances enc ⟨true, ParseOutcome.ok (JVal.obj kvs)⟩ =
        ⟨200, JVal.obj [("distances", JVal.arr (ds.map JVal.num))]⟩ ∧
      ∀ d ∈ ds, 0 ≤ d ∧ d ≤ 2 := by
  refine ⟨cs.map fun c => 1 - cosineSim (emb s) (emb c), ?_, ?_⟩
  · rw [calculate_distances_valid_total enc emb kvs s cs hspec hcand hne henc]
    simp [List.map_map, Function.comp]
  · intro d hd
    obtain ⟨c, _, hc⟩ := List.mem_map.mp hd
    rw [← hc]
    exact one_sub_cosineSim_mem (emb s) (emb c)

/-- Witness for C3 at a concrete valid request. -/
theorem claim3_witness :
    ∃ ds : List ℝ,
      calculate_distances encUnit ⟨true, ParseOutcome.ok (JVal.obj
        [("spec", JVal.str "x"), ("candidates", JVal.arr
          [JVal.str "y", JVal.str "z"])])⟩ =
        ⟨200, JVal.obj [("distances", JVal.arr (ds.map JVal.num))]⟩ ∧
      ∀ d ∈ ds, 0 ≤ d ∧ d ≤ 2 :=
  claim3_distance_range encUnit embUnit
    [("spec", JVal.str "x"), ("candidates", JVal.arr [JVal.str "y", JVal.str "z"])]
    "x" ["y", "z"] rfl rfl (by simp) (fun _ => rfl)

/-- C10: a request whose spec is the empty string, or whose candidates
list contains empty strings, passes every validation check (the checks
test only presence, type and list non-emptiness, never string
non-emptiness) and yields a 200 response with one distance per
candidate. -/
theorem claim10_empty_strings_pass (enc : Encoder) (emb : String → List ℝ)
    (s : String) (cs : List String) (hne : cs ≠ [])
    (hempty : s = "" ∨ "" ∈ cs)
    (henc : ∀ t, enc t = Except.ok (emb t)) :
    (calculate_distances enc (mkReq s cs)).status = 200 ∧
    ∃ ds : List ℝ,
      calculate_distances enc (mkReq s cs) =
        ⟨200, JVal.obj [("distances", JVal.arr (ds.map JVal.num))]⟩ ∧
      ds.length = cs.length := by
  have h := calculate_distances_valid_total enc emb
    [("spec", JVal.str s), ("candidates", JVal.arr (cs.map JVal.str))]
    s cs rfl rfl hne henc
  unfold mkReq
  rw [h]
  refine ⟨rfl, cs.map fun c => 1 - cosineSim (emb s) (emb c), ?_, by simp⟩
  simp [List.map_map, Function.comp]

/-- Witness for C10 at a concrete request whose spec is the non-empty
string hello and whose sole candidate is the empty string. -/
theorem claim10_witness :
    (calculate_distances encUnit (mkReq "hello" [""])).status = 200 ∧
    ∃ ds : List ℝ,
      calculate_distances encUnit (mkReq "hello" [""]) =
        ⟨200, JVal.obj [("distances", JVal.arr (ds.map JVal.num))]⟩ ∧
      ds.length = ([""] : List String).length :=
  claim10_empty_strings_pass encUnit embUnit "hello" [""] (by simp)
    (Or.inr (by simp)) (fun _ => rfl)

/-- Counterexample to C4 as stated: a JSON-typed request whose body is
the number 5 is valid JSON, non-null and has no spec field, so per the
claim the fourth check should fail with a 400; the code instead raises a
TypeError at the membership test and returns a 500, while the spec-side
cascade prescribes the 400 missing-spec response. -/
theorem claim4_counterexample :
    (calculate_distances encUnit ⟨true, ParseOutcome.ok (JVal.num 5)⟩).status = 500 ∧
    (calculate_distances encUnit ⟨true, ParseOutcome.ok (JVal.num 5)⟩).status ≠ 400 ∧
    specFirstFailure ⟨true, ParseOutcome.ok (JVal.num 5)⟩ =
      some (e400 "Missing \x27spec\x27 field") := by
  have h5 : (calculate_distances encUnit
      ⟨true, ParseOutcome.ok (JVal.num 5)⟩).status = 500 := rfl
  exact ⟨h5, by rw [h5]; decide, rfl⟩

/-- C4 (amended): on every request whose parsed body is null or a JSON
object (as well as on content-type and parse failures), the nine
validation checks run in the specified order; whenever one fails, the
response is exactly the 400 response of the first failing check, with no
distances key in the body, and it is independent of the encoder, so no
encoding or similarity computation influences it.  The guarantee is
restricted to such bodies because it fails outside them: for the JSON
number body 5 the membership test raises a TypeError and the endpoint
returns a 500 (see the counterexample); bodies of other non-object
shapes can instead pass the membership test, since the Python in
operator is a substring test on strings and element membership on
lists. -/
theorem claim4_validation_order (enc : Encoder) (req : HttpRequest) (r : HttpResponse)
    (hbody : ∀ d, req.body = ParseOutcome.ok d → isNull d = true ∨ isObj d = true)
    (hr : specFirstFailure req = some r) :
    calculate_distances enc req = r ∧ r.status = 400 ∧
    objHasKey r.body "distances" = false := by
  have h1 := calcCore_refines_spec enc req r hbody hr
  have h2 := specFirstFailure_shape req r hr
  refine ⟨?_, h2.1, h2.2⟩
  unfold calculate_distances
  rw [h1]

/-- Witness for the amended C4 at a concrete request whose body is an
empty object: the first failing check is the spec presence check. -/
theorem claim4_witness :
    calculate_distances encUnit ⟨true, ParseOutcome.ok (JVal.obj [])⟩ =
      e400 "Missing \x27spec\x27 field" ∧
    (e400 "Missing \x27spec\x27 field").status = 400 ∧
    objHasKey (e400 "Missing \x27spec\x27 field").body "distances" = false :=
  claim4_validation_order encUnit ⟨true, ParseOutcome.ok (JVal.obj [])⟩
    (e400 "Missing \x27spec\x27 field")
    (fun d hd => by injection hd with h; rw [← h]; right; rfl) rfl

/-- C5: a JSON-typed request whose body does not parse as JSON yields a
400 response with a parse-error detail in the body, never a 500. -/
theorem claim5_parse_error_400 (enc : Encoder) (req : HttpRequest) (m : String)
    (hj : req.is_json = true)
    (hb : req.body = ParseOutcome.badRequest m ∨ req.body = ParseOutcome.failure m) :
    (calculate_distances enc req).status = 400 ∧
    (calculate_distances enc req).status ≠ 500 ∧
    ∃ t, calculate_distances enc req =
      ⟨400, JVal.obj [("error", JVal.str t), ("details", JVal.str m)]⟩ := by
  rcases hb with hb | hb
  · have h : calculate_distances enc req =
        ⟨400, JVal.obj [("error", JVal.str "Invalid JSON format"),
                        ("details", JVal.str m)]⟩ := by
      unfold calculate_distances calcCore
      rw [hj, hb]
      rfl
    exact ⟨by rw [h], by rw [h]; simp, "Invalid JSON format", by rw [h]⟩
  · have h : calculate_distances enc req =
        ⟨400, JVal.obj [("error", JVal.str "Failed to parse JSON"),
                        ("details", JVal.str m)]⟩ := by
      unfold calculate_distances calcCore
      rw [hj, hb]
      rfl
    exact ⟨by rw [h], by rw [h]; simp, "Failed to parse JSON", by rw [h]⟩

/-- Witness for C5 at a concrete malformed-body request. -/
theorem claim5_witness :
    (calculate_distances encUnit ⟨true, ParseOutcome.badRequest "bad token"⟩).status = 400 ∧
    (calculate_distances encUnit ⟨true, ParseOutcome.badRequest "bad token"⟩).status ≠ 500 ∧
    ∃ t, calculate_distances encUnit ⟨true, ParseOutcome.badRequest "bad token"⟩ =
      ⟨400, JVal.obj [("error", JVal.str t), ("details", JVal.str "bad token")]⟩ :=
  claim5_parse_error_400 encUnit ⟨true, ParseOutcome.badRequest "bad token"⟩
    "bad token" rfl (Or.inl rfl)

/-- C6: on a request that passes all validations, an exception raised by
either encode call yields a 500 whose body carries the message, with no
distances key; handling is stateless, so every other request in any
serving sequence is answered exactly as it would be alone. -/
theorem claim6_internal_error_500 (enc : Encoder)
    (kvs : List (String × JVal)) (s : String) (cs : List String) (e : String)
    (hspec : kvs.lookup "spec" = some (JVal.str s))
    (hcand : kvs.lookup "candidates" = some (JVal.arr (cs.map JVal.str)))
    (hne : cs ≠ [])
    (henc : enc s = Except.error e ∨
      ∃ sv, enc s = Except.ok sv ∧ encodeBatch enc cs = Except.error e) :
    calculate_distances enc ⟨true, ParseOutcome.ok (JVal.obj kvs)⟩ =
      ⟨500, JVal.obj [("error", JVal.str ("Internal server error: " ++ e))]⟩ ∧
    objHasKey (calculate_distances enc
      ⟨true, ParseOutcome.ok (JVal.obj kvs)⟩).body "distances" = false ∧
    ∀ pre post,
      serveAll enc (pre ++ ApiCall.calcDist ⟨true, ParseOutcome.ok (JVal.obj kvs)⟩ :: post) =
        serveAll enc pre ++
          calculate_distances enc ⟨true, ParseOutcome.ok (JVal.obj kvs)⟩ ::
          serveAll enc post := by
  have hcore := calcCore_object_valid enc kvs s cs hspec hcand hne
  have h : calculate_distances enc ⟨true, ParseOutcome.ok (JVal.obj kvs)⟩ =
      ⟨500, JVal.obj [("error", JVal.str ("Internal server error: " ++ e))]⟩ := by
    unfold calculate_distances
    rw [hcore]
    rcases henc with h1 | ⟨sv, h1, h2⟩
    · rw [h1]
    · rw [h1, h2]
  refine ⟨h, ?_, ?_⟩
  · rw [h]
    rfl
  · intro pre post
    simp [serveAll, handle]

/-- Witness for C6 at a concrete valid request with a failing encoder. -/
theorem claim6_witness :
    calculate_distances encBoom ⟨true, ParseOutcome.ok (JVal.obj
      [("spec", JVal.str "a"), ("candidates", JVal.arr [JVal.str "b"])])⟩ =
      ⟨500, JVal.obj [("error",
        JVal.str ("Internal server error: " ++ "model crashed"))]⟩ ∧
    objHasKey (calculate_distances encBoom ⟨true, ParseOutcome.ok (JVal.obj
      [("spec", JVal.str "a"), ("candidates", JVal.arr [JVal.str "b"])])⟩).body
      "distances" = false ∧
    ∀ pre post,
      serveAll encBoom (pre ++ ApiCall.calcDist ⟨true, ParseOutcome.ok (JVal.obj
        [("spec", JVal.str "a"), ("candidates", JVal.arr [JVal.str "b"])])⟩ :: post) =
        serveAll encBoom pre ++
          calculate_distances encBoom ⟨true, ParseOutcome.ok (JVal.obj
            [("spec", JVal.str "a"), ("candidates", JVal.arr [JVal.str "b"])])⟩ ::
          serveAll encBoom post :=
  claim6_internal_error_500 encBoom
    [("spec", JVal.str "a"), ("candidates", JVal.arr [JVal.str "b"])]
    "a" ["b"] "model crashed" rfl rfl (by simp) (Or.inl rfl)

/-- C7: every health call in any serving sequence returns 200 with the
fixed body naming the served model, regardless of the surrounding request
history, and handling it leaves every other response unchanged. -/
theorem claim7_health_constant (enc : Encoder) (calls : List ApiCall) (i : Nat)
    (h1 : i < calls.length) (h2 : i < (serveAll enc calls).length)
    (hc : calls.get ⟨i, h1⟩ = ApiCall.healthCheck) :
    (serveAll enc calls).get ⟨i, h2⟩ =
      ⟨200, JVal.obj [("status", JVal.str "healthy"),
                      ("model", JVal.str MODEL_NAME)]⟩ ∧
    ∀ pre post, serveAll enc (pre ++ ApiCall.healthCheck :: post) =
      serveAll enc pre ++ health :: serveAll enc post := by
  constructor
  · have hg : (serveAll enc calls).get ⟨i, h2⟩ = handle enc (calls.get ⟨i, h1⟩) := by
      simp [serveAll, List.get_eq_getElem, List.getElem_map]
    rw [hg, hc]
    rfl
  · intro pre post
    simp [serveAll, handle]

/-- Witness for C7 at a one-call history. -/
theorem claim7_witness :
    (serveAll encUnit [ApiCall.healthCheck]).get ⟨0, by simp [serveAll]⟩ =
      ⟨200, JVal.obj [("status", JVal.str "healthy"),
                      ("model", JVal.str MODEL_NAME)]⟩ ∧
    ∀ pre post, serveAll encUnit (pre ++ ApiCall.healthCheck :: post) =
      serveAll encUnit pre ++ health :: serveAll encUnit post :=
  claim7_health_constant encUnit [ApiCall.healthCheck] 0 (by decide)
    (by simp [serveAll]) rfl

/-- Counterexample to C8 as stated: with a complete local cache entry
(directory and descriptor both present) and the interactive answer n,
download_model returns None, not the existing local path as the claim
requires. -/
theorem claim8_counterexample :
    (download_model "/srv" true true "n").returnValue = none ∧
    (download_model "/srv" true true "n").returnValue ≠ some (MODEL_DIR "/srv") :=
  ⟨rfl, by decide⟩

/-- C8 (amended): download_model consults only the existence of the cache
directory, never the configuration descriptor; it always first ensures
the parent directory exists; when the cache directory exists it prompts,
and unless the lowercased answer is y it performs no fetch and no write
to the cache entry; otherwise it fetches the model from the registry
identifier derived from the model name and saves it into the local cache
directory; and on every path it returns None (the path is only printed),
rather than returning the local path. -/
theorem claim8_download_model (baseDir : String) (dirExists cfg : Bool)
    (ans : String) :
    (download_model baseDir dirExists cfg ans).returnValue = none ∧
    (download_model baseDir dirExists cfg ans).madeParentDir = true ∧
    (∀ cfg2, download_model baseDir dirExists cfg2 ans =
      download_model baseDir dirExists cfg ans) ∧
    (dirExists = true → (download_model baseDir dirExists cfg ans).prompted = true) ∧
    (dirExists = true → (pyToLower ans == "y") = false →
      (download_model baseDir dirExists cfg ans).fetchedFrom = none ∧
      (download_model baseDir dirExists cfg ans).savedTo = none) ∧
    (dirExists = true → (pyToLower ans == "y") = true →
      (download_model baseDir dirExists cfg ans).fetchedFrom = some MODEL_HUGGINGFACE ∧
      (download_model baseDir dirExists cfg ans).savedTo = some (MODEL_DIR baseDir)) ∧
    (dirExists = false →
      (download_model baseDir dirExists cfg ans).prompted = false ∧
      (download_model baseDir dirExists cfg ans).fetchedFrom = some MODEL_HUGGINGFACE ∧
      (download_model baseDir dirExists cfg ans).savedTo = some (MODEL_DIR baseDir)) := by
  cases dirExists with
  | false => simp [download_model]
  | true =>
      cases hyy : (pyToLower ans == "y") with
      | false => simp [download_model, hyy]
      | true => simp [download_model, hyy]

/-- Witness for the amended C8 at a concrete input: complete cache entry,
answer n. -/
theorem claim8_witness :
    (download_model "/app" true true "N").returnValue = none ∧
    (download_model "/app" true true "N").madeParentDir = true ∧
    (∀ cfg2, download_model "/app" true cfg2 "N" =
      download_model "/app" true true "N") ∧
    (true = true → (download_model "/app" true true "N").prompted = true) ∧
    (true = true → (pyToLower "N" == "y") = false →
      (download_model "/app" true true "N").fetchedFrom = none ∧
      (download_model "/app" true true "N").savedTo = none) ∧
    (true = true → (pyToLower "N" == "y") = true →
      (download_model "/app" true true "N").fetchedFrom = some MODEL_HUGGINGFACE ∧
      (download_model "/app" true true "N").savedTo = some (MODEL_DIR "/app")) ∧
    (true = false →
      (download_model "/app" true true "N").prompted = false ∧
      (download_model "/app" true true "N").fetchedFrom = some MODEL_HUGGINGFACE ∧
      (download_model "/app" true true "N").savedTo = some (MODEL_DIR "/app")) :=
  claim8_download_model "/app" true true "N"

/-- C9: startup model resolution attempts the local load exactly when the
cache directory and its config.json both exist (and then saves nothing);
otherwise it fetches from the registry, creates the parent directory and
persists the model; a successful startup always holds a model that came
from one of the two loads; and every exception is logged and re-raised,
so a failed startup produces no model at all and the service cannot
serve. -/
theorem claim9_startup_resolution (α : Type) (env : StartupEnv α) :
    (env.dirExists = true → env.configExists = true →
      (∀ m, env.localLoad = Except.ok m →
        loadModelAtStartup env = Except.ok ⟨m, true, false⟩) ∧
      (∀ e, env.localLoad = Except.error e →
        loadModelAtStartup env = Except.error e)) ∧
    ((env.dirExists && env.configExists) = false →
      (∀ m, env.remoteLoad = Except.ok m → env.mkdirs = Except.ok () →
        env.save = Except.ok () →
        loadModelAtStartup env = Except.ok ⟨m, false, true⟩) ∧
      (∀ e, env.remoteLoad = Except.error e →
        loadModelAtStartup env = Except.error e)) ∧
    (∀ r, loadModelAtStartup env = Except.ok r →
      (env.localLoad = Except.ok r.model ∨ env.remoteLoad = Except.ok r.model) ∧
      r.usedLocal = (env.dirExists && env.configExists) ∧
      (r.usedLocal = false → r.saved = true ∧ env.save = Except.ok ()) ∧
      startupWithLog env = (Except.ok r, [])) ∧
    (∀ e, loadModelAtStartup env = Except.error e →
      startupWithLog env = (Except.error e, ["Error loading model: " ++ e])) := by
  obtain ⟨de, ce, ll, rl, mk, sv⟩ := env
  cases de <;> cases ce <;> cases ll <;> cases rl <;> cases mk <;> cases sv <;>
    simp [loadModelAtStartup, startupWithLog]

/-- Concrete startup environment for the C9 witness. -/
def envW : StartupEnv Nat :=
  ⟨true, true, Except.ok 7, Except.ok 8, Except.ok (), Except.ok ()⟩

/-- Witness for C9 at a concrete environment with a complete local cache
and successful local load. -/
theorem claim9_witness :
    (envW.dirExists = true → envW.configExists = true →
      (∀ m, envW.localLoad = Except.ok m →
        loadModelAtStartup envW = Except.ok ⟨m, true, false⟩) ∧
      (∀ e, envW.localLoad = Except.error e →
        loadModelAtStartup envW = Except.error e)) ∧
    ((envW.dirExists && envW.configExists) = false →
      (∀ m, envW.remoteLoad = Except.ok m → envW.mkdirs = Except.ok () →
        envW.save = Except.ok () →
        loadModelAtStartup envW = Except.ok ⟨m, false, true⟩) ∧
      (∀ e, envW.remoteLoad = Except.error e →
        loadModelAtStartup envW = Except.error e)) ∧
    (∀ r, loadModelAtStartup envW = Except.ok r →
      (envW.localLoad = Except.ok r.model ∨ envW.remoteLoad = Except.ok r.model) ∧
      r.usedLocal = (envW.dirExists && envW.configExists) ∧
      (r.usedLocal = false → r.saved = true ∧ envW.save = Except.ok ()) ∧
      startupWithLog envW = (Except.ok r, [])) ∧
    (∀ e, loadModelAtStartup envW = Except.error e →
      startupWithLog envW = (Except.error e, ["Error loading model: " ++ e])) :=
  claim9_startup_resolution Nat envW

end SimService
